import Mathlib

/-
Verification of the canary-reporting generators.

Shallow embedding of src/generators/GitHubIssueGenerator.py and
src/generators/JsonGenerator.py.  Python ints are modelled as ℤ and the
Python builtin `round` (round-half-to-even) as `pyRound` below.  Python
float arithmetic appears in two places, treated differently:

- The quality-gate comparison `percentage >= gate * .8` is modelled with
  the exact rational `gate * (4/5)`: for the integer gates and integer
  percentages that reach this comparison, the IEEE-754 evaluation of
  `gate * .8` and the exact value `4*gate/5` are never separated by an
  integer, so the comparisons agree.

- The percentage pipeline of lines 290-291 (`int / int`, `* 100`,
  `100 - x`, then `round`) is float arithmetic whose rounding is
  observable: its correctly-rounded binary64 steps can turn the exact
  tie 54.5 into a value strictly above it, so `round` returns 55 where
  round-half-to-even of the exact percentage returns 54.  The faithful
  model is `fl64` (round to nearest binary64, ties to even) composed per
  operation: `percentage_exectued_float` and `percentage_passing_float`
  below.  The exact-arithmetic idealizations `percentage_exectued` and
  `percentage_passing` are kept for the claims whose content does not
  depend on the float rounding: the division-by-zero guards are
  identical in both models, and at every concrete input those claims
  evaluate (1/13, 10/12, 9/10 based percentages) the binary64 pipeline
  and the exact pipeline agree.

Fallible Python code (dict key lookup, ZeroDivisionError, uncaught
exceptions) is modelled with `Option`/`Except`.
-/

/-- Modelled from the spec: the four test-case states of the
`ResultsAggregator` data model (datamodel/ResultsAggregator.py is not part
of the sources here; spec section 3 fixes the state enum to
passed/failed/skipped/ignored, realised in the source as the strings
used to key the symbol dictionaries). -/
inductive State where
  | passed
  | failed
  | skipped
  | ignored
deriving DecidableEq

/-- String form of a state, as interpolated by the source into dictionary
keys and into the report header. -/
def State.pyName : State → String
  | .passed => "passed"
  | .failed => "failed"
  | .skipped => "skipped"
  | .ignored => "ignored"

/-- Embedding of the Python builtin str.capitalize: first character
uppercased, the rest lowercased. -/
def pyCapitalize (s : String) : String :=
  match s.data with
  | [] => ""
  | c :: cs => String.mk (c.toUpper :: cs.map Char.toLower)

/-- GitHubIssueGenerator.header_symbols (source lines 15-20).  A Python
dict keyed by the four state strings; a lookup at a missing key would
raise KeyError, hence the Option codomain. -/
def header_symbols : State → Option String
  | .failed => some (":red_circle:")
  | .passed => some (":white_check_mark:")
  | .skipped => some (":large_blue_circle:")
  | .ignored => some (":warning:")

/-- GitHubIssueGenerator.status_symbols (source lines 22-27). -/
def status_symbols : State → Option String
  | .failed => some (":x:")
  | .passed => some (":white_check_mark:")
  | .skipped => some (":large_blue_circle:")
  | .ignored => some (":large_orange_diamond:")

/-- GitHubIssueGenerator.quality_symbols (source lines 29-33).  This dict
has no entry for the skipped state. -/
def quality_symbols : State → Option String
  | .failed => some (":red_circle:")
  | .passed => some (":white_check_mark:")
  | .ignored => some (":warning:")
  | .skipped => none

/-- The five counters returned by ResultsAggregator.get_counts, in the
order the source unpacks them: total, passed, failed, skipped, ignored. -/
structure AggregateCounts where
  total : ℕ
  passed : ℕ
  failed : ℕ
  skipped : ℕ
  ignored : ℕ
deriving DecidableEq

/-- Embedding of the Python builtin round on an exact rational: round to
the nearest integer, ties going to the even neighbour. -/
def pyRound (q : ℚ) : ℤ :=
  if q - ⌊q⌋ < 1/2 then ⌊q⌋
  else if q - ⌊q⌋ > 1/2 then ⌊q⌋ + 1
  else if ⌊q⌋ % 2 = 0 then ⌊q⌋ else ⌊q⌋ + 1

/-- Source line 290, `round(100 - ((_skipped / _total) * 100))`, in the
exact-arithmetic idealization: the float steps are evaluated as exact
rationals (see the header note; percentage_exectued_float below is the
binary64-faithful model, which agrees with this one on the guard
condition and on every concrete input the claims using this definition
evaluate).  The division raises ZeroDivisionError when `_total == 0`,
modelled as none.  The identifier keeps the spelling of the source local
variable. -/
def percentage_exectued (c : AggregateCounts) : Option ℤ :=
  if (c.total : ℚ) = 0 then none
  else some (pyRound (100 - ((c.skipped : ℚ) / (c.total : ℚ)) * 100))

/-- Source line 291, `round((_passed / (_total - _skipped)) * 100)`, in
the exact-arithmetic idealization (percentage_passing_float below is the
binary64-faithful model).  The division raises ZeroDivisionError when
`_total - _skipped == 0`. -/
def percentage_passing (c : AggregateCounts) : Option ℤ :=
  if (c.total : ℚ) - (c.skipped : ℚ) = 0 then none
  else some (pyRound (((c.passed : ℚ) / ((c.total : ℚ) - (c.skipped : ℚ))) * 100))

/-- Rounding of an exact rational to the nearest IEEE-754 binary64
value: 53 significant bits, round to nearest, ties to the even
significand, with unbounded exponent range (no overflow or subnormal
handling; this coincides with binary64 whenever the value lies in the
normal range, as every value reached by the percentage pipelines at
realistic counts does). -/
def fl64 (q : ℚ) : ℚ :=
  if q = 0 then 0
  else ((pyRound (q * (2:ℚ) ^ (52 - Int.log 2 |q|)) : ℤ) : ℚ)
    * (2:ℚ) ^ (-(52 - Int.log 2 |q|))

/-- Source line 290 with the float arithmetic modelled faithfully: the
int/int true division, the multiplication by 100 and the subtraction
from 100 each round their result to binary64 (Python converts the int
operands exactly and rounds each operation correctly), and the builtin
round is applied to the exact value of the resulting double. -/
def percentage_exectued_float (c : AggregateCounts) : Option ℤ :=
  if (c.total : ℚ) = 0 then none
  else some (pyRound (fl64 (100 - fl64 (fl64 ((c.skipped : ℚ) / (c.total : ℚ)) * 100))))

/-- Source line 291 with the float arithmetic modelled faithfully. -/
def percentage_passing_float (c : AggregateCounts) : Option ℤ :=
  if (c.total : ℚ) - (c.skipped : ℚ) = 0 then none
  else some (pyRound (fl64 (fl64 ((c.passed : ℚ) / ((c.total : ℚ) - (c.skipped : ℚ))) * 100)))

/-- Icon selection shared by source lines 293-301 and 303-311: compare an
integer percentage against a gate, then against `gate * .8`, and look the
resulting state up in quality_symbols.  Both occurrences in the source
pass `self.executed_quality_gate` as the gate. -/
def quality_icon (gate : ℤ) (pct : ℤ) : Option String :=
  if pct ≥ gate then quality_symbols State.passed
  else if (pct : ℚ) ≥ (gate : ℚ) * (4/5) then quality_symbols State.ignored
  else quality_symbols State.failed

/-- GitHubIssueGenerator.generate_summary (source lines 287-321), as a
function of the two gates held on self and of the counts returned by
get_counts.  Note that the source compares BOTH percentages against
executed_quality_gate (lines 293, 296, 303, 306); passing_quality_gate
only appears in the rendered text (line 314). -/
def generate_summary (executed_quality_gate passing_quality_gate : ℤ)
    (c : AggregateCounts) : Option String := do
  let pe ← percentage_exectued c
  let pp ← percentage_passing c
  let executed_icon ← quality_icon executed_quality_gate pe
  let passing_icon ← quality_icon executed_quality_gate pp
  let sym_passed ← status_symbols State.passed
  let sym_failed ← status_symbols State.failed
  let sym_ignored ← status_symbols State.ignored
  let sym_skipped ← status_symbols State.skipped
  pure ("## Quality Gate\n\n"
    ++ executed_icon ++ " **Percentage Executed:** " ++ toString pe
    ++ "% (" ++ toString executed_quality_gate ++ "% Quality Gate)\n\n"
    ++ passing_icon ++ " **Percentage Passing:** " ++ toString pp
    ++ "% (" ++ toString passing_quality_gate ++ "% Quality Gate)\n\n"
    ++ "## Summary\n\n"
    ++ "**" ++ sym_passed ++ " " ++ toString c.passed ++ " "
    ++ (if c.passed = 1 then "Test" else "Tests") ++ " Passed**\n\n"
    ++ "**" ++ sym_failed ++ " " ++ toString c.failed ++ " "
    ++ (if c.failed = 1 then "Test" else "Tests") ++ " Failed**\n\n"
    ++ "**" ++ sym_ignored ++ " " ++ toString c.ignored ++ " "
    ++ (if c.ignored = 1 then "Failure" else "Failures") ++ " Ignored**\n\n"
    ++ "**" ++ sym_skipped ++ " " ++ toString c.skipped ++ " Test "
    ++ (if c.skipped = 1 then "Case" else "Cases") ++ " Skipped**\n\n")

/-- GitHubIssueGenerator.generate_header (source lines 238-247), as a
function of the status returned by get_status and the optional snapshot
and stage attributes. -/
def generate_header (status : State) (snapshot stage : Option String) :
    Option String := do
  let sym ← header_symbols status
  let h0 := "# " ++ sym
  let h1 := match snapshot with
    | some s => h0 ++ s
    | none => h0
  let h2 := h1 ++ " " ++ pyCapitalize status.pyName
  pure (match stage with
    | some s => h2 ++ " on branch " ++ pyCapitalize s
    | none => h2)

/-- One entry of the list returned by ResultsAggregator.get_results, with
the fields the source reads: state, testsuite, name and
metadata[message].  Spec section 3 guarantees the metadata mapping always
carries a message string, so it is a plain field here. -/
structure TestCaseResult where
  testsuite : String
  name : String
  state : State
  message : String
deriving DecidableEq

/-- Loop body of GitHubIssueGenerator.generate_body (source lines
327-331): walk the results accumulating the report, appending a section
for each failed or ignored result, with a status_symbols lookup at that
state; a failing lookup would raise KeyError and abort the loop. -/
def generate_body_loop (body : String) : List TestCaseResult → Option String
  | [] => some body
  | r :: rest =>
      if r.state = State.failed ∨ r.state = State.ignored then
        match status_symbols r.state with
        | none => none
        | some sym =>
            generate_body_loop
              (body ++ "### " ++ sym ++ " " ++ r.testsuite ++ " -> " ++ r.name
                ++ "\n\n" ++ "```\n" ++ r.message ++ "\n```\n") rest
      else generate_body_loop body rest

/-- GitHubIssueGenerator.generate_body (source lines 324-332). -/
def generate_body (results : List TestCaseResult) : Option String :=
  generate_body_loop ("## Failing Tests\n\n") results

/-- The three-level verdict of the spec. -/
inductive Verdict where
  | pass
  | warn
  | fail
deriving DecidableEq

/-- Modelled from the spec: verdict classification of one percentage
against its own gate — pass if percentage >= gate, warn if
percentage >= gate * 0.8, fail otherwise.  This definition follows the
words of the spec and is compared against the icon selection the source
actually performs. -/
def spec_classify (gate : ℤ) (pct : ℤ) : Verdict :=
  if pct ≥ gate then Verdict.pass
  else if (pct : ℚ) ≥ (gate : ℚ) * (4/5) then Verdict.warn
  else Verdict.fail

/-- One ignorelist entry: a dict with name, squad and owner keys. -/
structure IgnorelistEntry where
  name : String
  squad : String
  owner : String
deriving DecidableEq

/-- Observable contents of the ignorelist file named by the command line:
either no usable file, a file whose contents json.loads rejects, or a
parsed JSON document that may or may not carry the ignored_tests key. -/
inductive IgnoreListFile where
  | absent
  | malformedJson
  | validJson (ignored_tests : Option (List IgnorelistEntry))
deriving DecidableEq

/-- A Python exception escaping the ignorelist-loading block. -/
inductive PyError where
  | keyError (key : String)
deriving DecidableEq

/-- Embedding of the ignorelist-loading block that opens
generate_github_issue_from_args (GitHubIssueGenerator.py lines 162-169)
and generate_json_report_from_args (JsonGenerator.py lines 57-65) — the
two blocks are textually identical.  The try/except catches ONLY
json.JSONDecodeError; the subscript `_il[ignored_tests]` sits inside the
try block but a KeyError raised by it is not caught and escapes. -/
def load_ignore_list : IgnoreListFile → Except PyError (List IgnorelistEntry)
  | IgnoreListFile.absent => Except.ok []
  | IgnoreListFile.malformedJson => Except.ok []
  | IgnoreListFile.validJson none => Except.error (PyError.keyError ("ignored_tests"))
  | IgnoreListFile.validJson (some l) => Except.ok l

/-- The attributes of a GitHubIssueGenerator object that the operations
verified here read (GitHubIssueGenerator.py lines 69-98).  Metadata
attributes that only feed the rendered text are omitted. -/
structure GitHubIssueGenerator where
  ignorelist : List IgnorelistEntry
  tags : List String
  passing_quality_gate : ℤ
  executed_quality_gate : ℤ
  dry_run : Bool
  output_file : Option String
deriving DecidableEq

/-- Behaviour of the GitHub remote during open_github_issue: whether the
login/org/repo lookup raises UnknownObjectException, which labels
repo.get_label finds, and whether repo.create_issue raises. -/
structure RemoteEnv where
  lookup_fails : Bool
  label_found : String → Bool
  create_fails : Bool

/-- How the process leaves open_github_issue. -/
inductive Outcome where
  | ok
  | exitCode (n : ℤ)
  | uncaught
deriving DecidableEq

/-- Observable effects of one run of open_github_issue. -/
structure RunResult where
  file_written : Option String
  applied_tags : List String
  outcome : Outcome

/-- GitHubIssueGenerator.open_github_issue (source lines 179-210), as a
function of the generated issue body and of the remote behaviour.  The
source writes the local output file first (lines 182-184); when not a dry
run it then looks up the org and repo, calling exit(1) on
UnknownObjectException (lines 186-193), collects the labels that exist
while tolerating missing ones (lines 194-201), and finally calls
create_issue, whose exceptions nothing catches (line 202). -/
def open_github_issue (g : GitHubIssueGenerator) (body : String)
    (env : RemoteEnv) : RunResult :=
  let written := g.output_file.map (fun _ => body)
  if g.dry_run then
    { file_written := written, applied_tags := [], outcome := Outcome.ok }
  else if env.lookup_fails then
    { file_written := written, applied_tags := [], outcome := Outcome.exitCode 1 }
  else
    let applied := g.tags.filter env.label_found
    if env.create_fails then
      { file_written := written, applied_tags := applied, outcome := Outcome.uncaught }
    else
      { file_written := written, applied_tags := applied, outcome := Outcome.ok }

/-- The shared default-argument objects of the two constructors.  Python
evaluates the default expressions `ignorelist=[]` and `tags=[]` once, at
def time; every call that omits the argument observes the same object, so
the current contents of those objects are module state threaded through
every construction. -/
structure DefaultCells where
  gh_ignorelist : List IgnorelistEntry
  gh_tags : List String
  js_ignorelist : List IgnorelistEntry
deriving DecidableEq

/-- Contents of the default cells when the module is loaded: all empty. -/
def initCells : DefaultCells :=
  { gh_ignorelist := [], gh_tags := [], js_ignorelist := [] }

/-- GitHubIssueGenerator.__init__ (source lines 35-98) restricted to the
attributes of interest; an argument given as none is omitted at the call
site and reads the shared default cell.  The body only stores the two
lists (lines 82, 89) and hands ignorelist to the ResultsAggregator, which
per spec sections 4.2-4.3 never mutates it; no statement of the source
writes through either list, so the cells come back unchanged. -/
def GitHubIssueGenerator.construct (cells : DefaultCells)
    (ignorelist : Option (List IgnorelistEntry)) (tags : Option (List String))
    (passing_quality_gate executed_quality_gate : ℤ) (dry_run : Bool)
    (output_file : Option String) : GitHubIssueGenerator × DefaultCells :=
  ({ ignorelist := ignorelist.getD cells.gh_ignorelist
   , tags := tags.getD cells.gh_tags
   , passing_quality_gate := passing_quality_gate
   , executed_quality_gate := executed_quality_gate
   , dry_run := dry_run
   , output_file := output_file }, cells)

/-- The attributes of a JsonGenerator object (JsonGenerator.py lines
11-23).  Fields the source compares against None are Options; ignorelist
and the two gates have non-None constructor defaults but the source still
guards them with `is not None`, hence their Option type. -/
structure JsonGenerator where
  snapshot : Option String
  branch : Option String
  stage : Option String
  hub_version : Option String
  hub_platform : Option String
  import_version : Option String
  import_platform : Option String
  job_url : Option String
  build_id : Option String
  issue_url : Option String
  ignorelist : Option (List IgnorelistEntry)
  passing_quality_gate : Option ℤ
  executed_quality_gate : Option ℤ
deriving DecidableEq

/-- JsonGenerator.__init__ (source lines 8-31); an ignorelist or gate
argument given as none is omitted at the call site, the ignorelist then
reading the shared default cell and the gates the immutable literal 100.
As in the GitHub constructor, nothing writes through the ignorelist, so
the cells come back unchanged. -/
def JsonGenerator.construct (cells : DefaultCells)
    (snapshot branch stage hub_version hub_platform import_version
      import_platform job_url build_id issue_url : Option String)
    (ignorelist : Option (List IgnorelistEntry))
    (passing_quality_gate executed_quality_gate : Option ℤ) :
    JsonGenerator × DefaultCells :=
  ({ snapshot := snapshot
   , branch := branch
   , stage := stage
   , hub_version := hub_version
   , hub_platform := hub_platform
   , import_version := import_version
   , import_platform := import_platform
   , job_url := job_url
   , build_id := build_id
   , issue_url := issue_url
   , ignorelist := some (ignorelist.getD cells.js_ignorelist)
   , passing_quality_gate := some (passing_quality_gate.getD 100)
   , executed_quality_gate := some (executed_quality_gate.getD 100) }, cells)

/-- A JsonGenerator built with every optional argument omitted. -/
def JsonGenerator.pyDefault : JsonGenerator :=
  (JsonGenerator.construct initCells none none none none none none none
    none none none none none none).1

/-- One constructor invocation, possibly omitting the optional collection
arguments (none = omitted). -/
inductive CtorCall where
  | gh (ignorelist : Option (List IgnorelistEntry)) (tags : Option (List String))
  | js (ignorelist : Option (List IgnorelistEntry))

/-- Effect of one constructor invocation on the shared default cells. -/
def stepCall (cells : DefaultCells) : CtorCall → DefaultCells
  | CtorCall.gh il tg =>
      (GitHubIssueGenerator.construct cells il tg 100 100 true none).2
  | CtorCall.js il =>
      (JsonGenerator.construct cells none none none none none none none
        none none none il none none).2

/-- Run a sequence of constructor invocations from a given cell state. -/
def runCalls (cells : DefaultCells) (calls : List CtorCall) : DefaultCells :=
  calls.foldl stepCall cells

/-- Values stored in the JSON report mapping. -/
inductive JValue where
  | s (v : String)
  | n (v : ℤ)
  | entries (v : List IgnorelistEntry)
deriving DecidableEq

/-- Embedding of one guarded dict store
`if self.attr is not None: _report[key] = self.attr`:
when the attribute is None the mapping is untouched, otherwise the key is
bound (overwriting any previous binding). -/
def setIf (d : String → Option JValue) (key : String) (v : Option JValue) :
    String → Option JValue :=
  fun q => if v.isSome ∧ q = key then v else d q

/-- The thirteen metadata keys generate_json_report may write, in source
order (JsonGenerator.py lines 80-105). -/
def metaKeys : List String :=
  ["snapshot", "branch", "stage", "hub_version", "hub_platform",
   "import_version", "import_platform", "job_url", "build_id",
   "ignorelist", "issue_url", "executed_quality_gate",
   "passing_quality_gate"]

/-- The thirteen guarded stores of JsonGenerator.generate_json_report
(source lines 80-105) in source order: each pair is the dict key together
with the attribute value to store when that attribute is not None. -/
def metaUpdates (g : JsonGenerator) : List (String × Option JValue) :=
  [("snapshot", g.snapshot.map JValue.s),
   ("branch", g.branch.map JValue.s),
   ("stage", g.stage.map JValue.s),
   ("hub_version", g.hub_version.map JValue.s),
   ("hub_platform", g.hub_platform.map JValue.s),
   ("import_version", g.import_version.map JValue.s),
   ("import_platform", g.import_platform.map JValue.s),
   ("job_url", g.job_url.map JValue.s),
   ("build_id", g.build_id.map JValue.s),
   ("ignorelist", g.ignorelist.map JValue.entries),
   ("issue_url", g.issue_url.map JValue.s),
   ("executed_quality_gate", g.executed_quality_gate.map JValue.n),
   ("passing_quality_gate", g.passing_quality_gate.map JValue.n)]

/-- JsonGenerator.generate_json_report (source lines 78-106): start from
the mapping returned by get_raw_results and perform the thirteen guarded
stores in source order. -/
def generate_json_report (g : JsonGenerator)
    (raw : String → Option JValue) : String → Option JValue :=
  (metaUpdates g).foldl (fun d u => setIf d u.1 u.2) raw

/-- pyRound never moves a value by more than one half. -/
theorem pyRound_nearest (q : ℚ) : |q - (pyRound q : ℚ)| ≤ 1/2 := by
  have h1 := Int.floor_le q
  have h2 := Int.lt_floor_add_one q
  rw [pyRound]
  split_ifs with ha hb hc <;> push_cast <;> rw [abs_le] <;> constructor <;> linarith

/-- pyRound sends an exact half to the even neighbour. -/
theorem pyRound_tie (n : ℤ) :
    pyRound ((n : ℚ) + 1/2) = if n % 2 = 0 then n else n + 1 := by
  have hf : ⌊(n : ℚ) + 1/2⌋ = n := by
    rw [Int.floor_eq_iff]
    constructor <;> push_cast <;> linarith
  rw [pyRound, hf]
  norm_num

/-- The result of pyRound at an exact half is always even. -/
theorem pyRound_tie_even (q : ℚ) (h : q - ⌊q⌋ = 1/2) : pyRound q % 2 = 0 := by
  rw [pyRound]
  split_ifs with ha hb hc
  · rw [h] at ha
    exact absurd ha (by norm_num)
  · rw [h] at hb
    exact absurd hb (by norm_num)
  · exact hc
  · omega

/-- Away from an exact half, pyRound agrees with rounding half up. -/
theorem pyRound_eq_round (q : ℚ) (h : q - ⌊q⌋ ≠ 1/2) : pyRound q = round q := by
  have h1 := Int.floor_le q
  have h2 := Int.lt_floor_add_one q
  rw [round_eq, pyRound]
  split_ifs with ha hb hc
  · symm
    rw [Int.floor_eq_iff]
    constructor <;> push_cast <;> linarith
  · symm
    rw [Int.floor_eq_iff]
    constructor <;> push_cast <;> linarith
  · exact absurd (le_antisymm (not_lt.mp hb) (not_lt.mp ha)) h
  · exact absurd (le_antisymm (not_lt.mp hb) (not_lt.mp ha)) h

/-- Unfolding of percentage_exectued when the total is nonzero. -/
theorem percentage_exectued_eq (c : AggregateCounts) (h : c.total ≠ 0) :
    percentage_exectued c
      = some (pyRound (100 - ((c.skipped : ℚ) / (c.total : ℚ)) * 100)) := by
  unfold percentage_exectued
  rw [if_neg]
  simpa using h

/-- Unfolding of percentage_passing when some test was executed. -/
theorem percentage_passing_eq (c : AggregateCounts) (h : c.total ≠ c.skipped) :
    percentage_passing c
      = some (pyRound (((c.passed : ℚ) / ((c.total : ℚ) - (c.skipped : ℚ))) * 100)) := by
  unfold percentage_passing
  rw [if_neg]
  intro hz
  exact h (by exact_mod_cast sub_eq_zero.mp hz)

/-- The icon selection always finds a symbol: it only ever reads
quality_symbols at passed, ignored or failed. -/
theorem quality_icon_isSome (gate pct : ℤ) : (quality_icon gate pct).isSome := by
  unfold quality_icon
  split_ifs <;> simp [quality_symbols]

/-- generate_summary fails exactly on the two division-by-zero
conditions; every dictionary lookup it performs succeeds. -/
theorem generate_summary_none_iff (eg pg : ℤ) (c : AggregateCounts) :
    generate_summary eg pg c = none ↔ (c.total = 0 ∨ c.total = c.skipped) := by
  rcases eq_or_ne c.total 0 with h | h
  · simp [generate_summary, percentage_exectued, h]
  · rcases eq_or_ne c.total c.skipped with h2 | h2
    · have hpp : percentage_passing c = none := by
        unfold percentage_passing
        rw [if_pos (by rw [sub_eq_zero]; exact_mod_cast h2)]
      simp [generate_summary, percentage_exectued_eq c h, hpp, h, h2]
    · obtain ⟨i1, hi1⟩ := Option.isSome_iff_exists.mp
        (quality_icon_isSome eg (pyRound (100 - ((c.skipped : ℚ) / (c.total : ℚ)) * 100)))
      obtain ⟨i2, hi2⟩ := Option.isSome_iff_exists.mp
        (quality_icon_isSome eg
          (pyRound (((c.passed : ℚ) / ((c.total : ℚ) - (c.skipped : ℚ))) * 100)))
      simp [generate_summary, percentage_exectued_eq c h, percentage_passing_eq c h2,
        hi1, hi2, status_symbols, h, h2]

/-- A store at a different key does not change a lookup. -/
theorem setIf_ne (d : String → Option JValue) (key : String)
    (v : Option JValue) (q : String) (h : q ≠ key) : setIf d key v q = d q := by
  cases v <;> simp [setIf, h]

/-- A guarded store at a key the base mapping does not bind makes the
lookup return exactly the guarded value. -/
theorem setIf_at (d : String → Option JValue) (key : String)
    (v : Option JValue) (h : d key = none) : setIf d key v key = v := by
  cases v <;> simp [setIf, h]

/-- No constructor invocation writes to the shared default cells. -/
theorem stepCall_cells (cells : DefaultCells) (call : CtorCall) :
    stepCall cells call = cells := by
  cases call <;> rfl

/-- Any sequence of constructor invocations leaves the default cells in
their load-time state. -/
theorem runCalls_init (calls : List CtorCall) :
    runCalls initCells calls = initCells := by
  have key : ∀ (l : List CtorCall) (c : DefaultCells), runCalls c l = c := by
    intro l
    induction l with
    | nil => intro c; rfl
    | cons a t ih =>
        intro c
        show runCalls (stepCall c a) t = c
        rw [stepCall_cells, ih]
  exact key calls initCells

/-- Modelled from the spec: a sample of the mapping returned by
get_raw_results (not among the sources; spec section 4.3 describes it as
a projection of all results plus counts), here binding a single counts
key disjoint from the metadata keys. -/
def sampleRawResults : String → Option JValue :=
  fun k => if k = ("total") then some (JValue.n 13) else none

/-- A key none of the guarded stores writes reads through to the base
mapping. -/
theorem foldl_setIf_not_mem (us : List (String × Option JValue))
    (d : String → Option JValue) (k : String) (h : ∀ u ∈ us, k ≠ u.1) :
    (us.foldl (fun d u => setIf d u.1 u.2) d) k = d k := by
  induction us generalizing d with
  | nil => rfl
  | cons u t ih =>
      rw [List.foldl_cons, ih _ (fun x hx => h x (List.mem_cons_of_mem _ hx))]
      exact setIf_ne _ _ _ _ (h u (List.mem_cons_self _ _))

/-- Reading the key of one guarded store, when no other store in the
chain uses that key and the base mapping does not bind it, returns
exactly the guarded value. -/
theorem foldl_setIf_lookup (pre post : List (String × Option JValue))
    (raw : String → Option JValue) (k : String) (v : Option JValue)
    (hpre : ∀ u ∈ pre, k ≠ u.1) (hpost : ∀ u ∈ post, k ≠ u.1)
    (hbase : raw k = none) :
    ((pre ++ (k, v) :: post).foldl (fun d u => setIf d u.1 u.2) raw) k = v := by
  rw [List.foldl_append, List.foldl_cons,
    foldl_setIf_not_mem post _ k hpost, setIf_at]
  rw [foldl_setIf_not_mem pre raw k hpre]
  exact hbase

/-- Every state has a header symbol and a status symbol. -/
theorem header_status_symbols_total (s : State) :
    (header_symbols s).isSome ∧ (status_symbols s).isSome := by
  cases s <;> exact ⟨rfl, rfl⟩

/-- The header lookup succeeds for every status. -/
theorem generate_header_isSome (status : State) (snapshot stage : Option String) :
    (generate_header status snapshot stage).isSome := by
  cases status <;> simp [generate_header, header_symbols]

/-- The body loop never fails: it reads status_symbols only at failed or
ignored, where the dict is defined. -/
theorem generate_body_loop_isSome (results : List TestCaseResult) :
    ∀ body : String, (generate_body_loop body results).isSome := by
  induction results with
  | nil => intro body; rfl
  | cons r t ih =>
      intro body
      cases hst : r.state <;> simp [generate_body_loop, hst, status_symbols] <;> exact ih _

/-- pyRound is the identity on integers. -/
theorem pyRound_intCast (n : ℤ) : pyRound ((n : ℚ)) = n := by
  rw [pyRound, Int.floor_intCast]
  norm_num

/-- Claim C1: the spec says each percentage is classified against its own
gate, the passing percentage against passing_quality_gate.  The source
instead compares the passing percentage against executed_quality_gate
(lines 303 and 306), contradicting its own comment (line 302) and the
text it renders next to the icon (line 314).  At counts
total=10/passed=9/skipped=0 with executed gate 100 and passing gate 50,
the passing percentage is 90: the spec classification against the
passing gate is pass, yet the source selects the warning icon because it
compares 90 against the executed gate 100. -/
theorem C1_passing_gate_mixup :
    percentage_passing (AggregateCounts.mk 10 9 1 0 0) = some 90 ∧
    quality_icon 100 90 = quality_symbols State.ignored ∧
    spec_classify 50 90 = Verdict.pass ∧
    quality_symbols State.ignored ≠ quality_symbols State.passed := by
  refine ⟨?_, ?_, ?_, ?_⟩
  · rw [percentage_passing_eq _ (by decide)]
    show some (pyRound ((((9 : ℕ) : ℚ) / (((10 : ℕ) : ℚ) - ((0 : ℕ) : ℚ))) * 100))
      = some ((90 : ℤ))
    rw [show ((((9 : ℕ) : ℚ) / (((10 : ℕ) : ℚ) - ((0 : ℕ) : ℚ))) * 100)
        = ((90 : ℤ) : ℚ) from by norm_num, pyRound_intCast]
  · rw [quality_icon, if_neg (by decide), if_pos (by norm_num)]
  · rw [spec_classify, if_pos (by decide)]
  · simp [quality_symbols]

/-- Claim C2 counterexample: with zero counts (or all tests skipped) the
summary computation does NOT define the percentages as 100 — the
divisions raise ZeroDivisionError, modelled as none, and the error
surfaces from generate_summary. -/
theorem C2_counterexample :
    percentage_exectued (AggregateCounts.mk 0 0 0 0 0) = none ∧
    percentage_passing (AggregateCounts.mk 0 0 0 0 0) = none ∧
    generate_summary 100 100 (AggregateCounts.mk 0 0 0 0 0) = none := by
  refine ⟨?_, ?_, ?_⟩
  · simp [percentage_exectued]
  · simp [percentage_passing]
  · exact (generate_summary_none_iff 100 100 _).mpr (Or.inl rfl)

/-- Claim C2 amended: the source has no zero guard — generate_summary
fails with a division-by-zero error exactly when total is zero or every
test is skipped, and succeeds otherwise; no percentage is defined as 100
in those cases. -/
theorem C2_divide_by_zero_is_surfaced (eg pg : ℤ) (c : AggregateCounts) :
    generate_summary eg pg c = none ↔ (c.total = 0 ∨ c.total = c.skipped) :=
  generate_summary_none_iff eg pg c

/-- Claim C3 counterexample: an ignorelist file holding valid JSON that
lacks the ignored_tests key does not fall back to an empty ignorelist —
the subscript raises KeyError, which the except clause (which only
catches json.JSONDecodeError) lets escape to the caller. -/
theorem C3_counterexample :
    load_ignore_list (IgnoreListFile.validJson none)
      = Except.error (PyError.keyError ("ignored_tests")) := rfl

/-- Claim C3 amended: a file whose contents are not valid JSON is
treated as an empty ignorelist and the run continues with a warning, and
a file carrying the ignored_tests key is honoured; but valid JSON
without the ignored_tests key raises an uncaught KeyError that
propagates to the caller. -/
theorem C3_amended :
    load_ignore_list IgnoreListFile.malformedJson = Except.ok [] ∧
    load_ignore_list IgnoreListFile.absent = Except.ok [] ∧
    (∀ l, load_ignore_list (IgnoreListFile.validJson (some l)) = Except.ok l) ∧
    load_ignore_list (IgnoreListFile.validJson none)
      = Except.error (PyError.keyError ("ignored_tests")) :=
  ⟨rfl, rfl, fun _ => rfl, rfl⟩

/-- Claim C5: for counts total=13, passed=10, failed=2, skipped=1,
ignored=0 and both gates 100, percentage_exectued is 92,
percentage_passing is 83, and both classify as warn — both under the
spec classification and as the warning icon the source selects. -/
theorem C5_scenario_a :
    percentage_exectued (AggregateCounts.mk 13 10 2 1 0) = some 92 ∧
    percentage_passing (AggregateCounts.mk 13 10 2 1 0) = some 83 ∧
    quality_icon 100 92 = quality_symbols State.ignored ∧
    quality_icon 100 83 = quality_symbols State.ignored ∧
    spec_classify 100 92 = Verdict.warn ∧
    spec_classify 100 83 = Verdict.warn := by
  refine ⟨?_, ?_, ?_, ?_, ?_, ?_⟩
  · rw [percentage_exectued_eq _ (by decide)]
    show some (pyRound ((100 : ℚ) - (((1 : ℕ) : ℚ) / ((13 : ℕ) : ℚ)) * 100))
      = some ((92 : ℤ))
    rw [show ((100 : ℚ) - (((1 : ℕ) : ℚ) / ((13 : ℕ) : ℚ)) * 100)
        = (1200/13 : ℚ) from by norm_num]
    have hf : ⌊(1200/13 : ℚ)⌋ = 92 := by
      rw [Int.floor_eq_iff]
      norm_num
    rw [pyRound, hf]
    norm_num
  · rw [percentage_passing_eq _ (by decide)]
    show some (pyRound ((((10 : ℕ) : ℚ) / (((13 : ℕ) : ℚ) - ((1 : ℕ) : ℚ))) * 100))
      = some ((83 : ℤ))
    rw [show ((((10 : ℕ) : ℚ) / (((13 : ℕ) : ℚ) - ((1 : ℕ) : ℚ))) * 100)
        = (250/3 : ℚ) from by norm_num]
    have hf : ⌊(250/3 : ℚ)⌋ = 83 := by
      rw [Int.floor_eq_iff]
      norm_num
    rw [pyRound, hf]
    norm_num
  · rw [quality_icon, if_neg (by decide), if_pos (by norm_num)]
  · rw [quality_icon, if_neg (by decide), if_pos (by norm_num)]
  · rw [spec_classify, if_neg (by decide), if_pos (by norm_num)]
  · rw [spec_classify, if_neg (by decide), if_pos (by norm_num)]

/-- Claim C6 counterexample: with a local output file requested, a
failing issue-tracker lookup still terminates the run with exit code 1
(source line 193), even though the report was already written to the
output file — the run DOES fail solely because of the submission
failure. -/
theorem C6_counterexample :
    (open_github_issue
        (GitHubIssueGenerator.mk [] [] 100 100 false (some ("github.md")))
        ("report body")
        (RemoteEnv.mk true (fun _ => false) false)).outcome
      = Outcome.exitCode 1 ∧
    (open_github_issue
        (GitHubIssueGenerator.mk [] [] 100 100 false (some ("github.md")))
        ("report body")
        (RemoteEnv.mk true (fun _ => false) false)).file_written
      = some ("report body") :=
  ⟨rfl, rfl⟩

/-- Claim C6 amended: the report is always mirrored to the requested
local output file before any remote interaction, but a failed
issue-tracker lookup nevertheless terminates the process with exit(1);
only missing labels are tolerated. -/
theorem C6_amended_behaviour (g : GitHubIssueGenerator) (body : String)
    (env : RemoteEnv) :
    (open_github_issue g body env).file_written
      = g.output_file.map (fun _ => body) ∧
    (g.dry_run = false → env.lookup_fails = true →
      (open_github_issue g body env).outcome = Outcome.exitCode 1) := by
  refine ⟨?_, ?_⟩
  · rw [open_github_issue]
    split_ifs <;> rfl
  · intro h1 h2
    rw [open_github_issue]
    simp [h1, h2]

/-- Witness for C6 amended at a concrete generator and remote. -/
theorem C6_amended_witness :
    (open_github_issue
        (GitHubIssueGenerator.mk [] [] 100 100 false (some ("out.md")))
        ("body text")
        (RemoteEnv.mk true (fun _ => false) false)).file_written
      = some ("body text") ∧
    (open_github_issue
        (GitHubIssueGenerator.mk [] [] 100 100 false (some ("out.md")))
        ("body text")
        (RemoteEnv.mk true (fun _ => false) false)).outcome
      = Outcome.exitCode 1 := by
  obtain ⟨hw, ho⟩ := C6_amended_behaviour
    (GitHubIssueGenerator.mk [] [] 100 100 false (some ("out.md")))
    ("body text")
    (RemoteEnv.mk true (fun _ => false) false)
  exact ⟨hw.trans rfl, ho rfl rfl⟩

/-- Claim C8: no matter what sequence of constructions preceded it, a
construction of either generator that omits the optional ignorelist and
tags arguments observes empty collections — the shared default cells are
never written, so no state leaks between invocations through the
default values. -/
theorem C8_no_default_leak (pre : List CtorCall) :
    (GitHubIssueGenerator.construct (runCalls initCells pre)
        none none 100 100 true none).1.ignorelist = [] ∧
    (GitHubIssueGenerator.construct (runCalls initCells pre)
        none none 100 100 true none).1.tags = [] ∧
    (JsonGenerator.construct (runCalls initCells pre)
        none none none none none none none none none none none none
        none).1.ignorelist = some [] := by
  rw [runCalls_init]
  exact ⟨rfl, rfl, rfl⟩

/-- Claim C10: header_symbols and status_symbols are total over the four
states, generate_header and generate_body never fail a lookup, and
although quality_symbols lacks an entry for skipped, the icon selection
of generate_summary only reads it at passed, ignored or failed, so the
whole summary succeeds whenever its two divisions are defined. -/
theorem C10_symbol_lookups_total (st : State) (snapshot stage : Option String)
    (results : List TestCaseResult) (eg pg : ℤ) (c : AggregateCounts)
    (h1 : c.total ≠ 0) (h2 : c.total ≠ c.skipped) :
    (∀ s : State, (header_symbols s).isSome ∧ (status_symbols s).isSome) ∧
    (generate_header st snapshot stage).isSome ∧
    (generate_body results).isSome ∧
    quality_symbols State.skipped = none ∧
    (∀ gate pct : ℤ, (quality_icon gate pct).isSome) ∧
    (generate_summary eg pg c).isSome := by
  refine ⟨header_status_symbols_total,
    generate_header_isSome st snapshot stage,
    generate_body_loop_isSome results _, rfl, quality_icon_isSome, ?_⟩
  rw [Option.isSome_iff_ne_none]
  intro hnone
  rcases (generate_summary_none_iff eg pg c).mp hnone with h | h
  · exact h1 h
  · exact h2 h

/-- Witness for C10 at concrete inputs. -/
theorem C10_witness :
    (AggregateCounts.mk 13 10 2 1 0).total ≠ 0 ∧
    (AggregateCounts.mk 13 10 2 1 0).total ≠ (AggregateCounts.mk 13 10 2 1 0).skipped ∧
    ((∀ s : State, (header_symbols s).isSome ∧ (status_symbols s).isSome) ∧
     (generate_header State.failed none none).isSome ∧
     (generate_body [TestCaseResult.mk ("suite") ("case") State.failed ("msg")]).isSome ∧
     quality_symbols State.skipped = none ∧
     (∀ gate pct : ℤ, (quality_icon gate pct).isSome) ∧
     (generate_summary 100 100 (AggregateCounts.mk 13 10 2 1 0)).isSome) :=
  ⟨by decide, by decide,
   C10_symbol_lookups_total State.failed none none
     [TestCaseResult.mk ("suite") ("case") State.failed ("msg")]
     100 100 (AggregateCounts.mk 13 10 2 1 0) (by decide) (by decide)⟩

/-- An unconditional store returns the stored value, a skipped store
returns nothing. -/
theorem if_isSome_self (v : Option JValue) : (if v.isSome then v else none) = v := by
  cases v <;> simp

/-- Claim C9: generate_json_report returns the raw-results mapping with
every original entry preserved, extended with one entry per metadata
attribute exactly when that attribute is not None, and with ignorelist
and both gates always present under the default constructor values.  The
keys of the raw mapping are disjoint from the thirteen metadata keys
(get_raw_results is not among the sources; per spec section 4.3 it is a
projection of results plus counts). -/
theorem C9_json_report_frame (g : JsonGenerator) (raw : String → Option JValue)
    (hdisj : ∀ k ∈ metaKeys, raw k = none) :
    (∀ k, k ∉ metaKeys → generate_json_report g raw k = raw k) ∧
    generate_json_report g raw ("snapshot") = g.snapshot.map JValue.s ∧
    generate_json_report g raw ("branch") = g.branch.map JValue.s ∧
    generate_json_report g raw ("stage") = g.stage.map JValue.s ∧
    generate_json_report g raw ("hub_version") = g.hub_version.map JValue.s ∧
    generate_json_report g raw ("hub_platform") = g.hub_platform.map JValue.s ∧
    generate_json_report g raw ("import_version") = g.import_version.map JValue.s ∧
    generate_json_report g raw ("import_platform") = g.import_platform.map JValue.s ∧
    generate_json_report g raw ("job_url") = g.job_url.map JValue.s ∧
    generate_json_report g raw ("build_id") = g.build_id.map JValue.s ∧
    generate_json_report g raw ("issue_url") = g.issue_url.map JValue.s ∧
    generate_json_report JsonGenerator.pyDefault raw ("ignorelist")
      = some (JValue.entries []) ∧
    generate_json_report JsonGenerator.pyDefault raw ("executed_quality_gate")
      = some (JValue.n 100) ∧
    generate_json_report JsonGenerator.pyDefault raw ("passing_quality_gate")
      = some (JValue.n 100) := by
  refine ⟨?_, ?_, ?_, ?_, ?_, ?_, ?_, ?_, ?_, ?_, ?_, ?_, ?_, ?_⟩
  · intro k hk
    simp only [metaKeys, List.mem_cons, List.not_mem_nil, or_false, not_or] at hk
    obtain ⟨h1, h2, h3, h4, h5, h6, h7, h8, h9, h10, h11, h12, h13⟩ := hk
    simp [generate_json_report, metaUpdates, setIf,
      h1, h2, h3, h4, h5, h6, h7, h8, h9, h10, h11, h12, h13]
  · simp [generate_json_report, metaUpdates, setIf,
      hdisj ("snapshot") (by decide), if_isSome_self] <;> intro h <;> simp [h]
  · simp [generate_json_report, metaUpdates, setIf,
      hdisj ("branch") (by decide), if_isSome_self] <;> intro h <;> simp [h]
  · simp [generate_json_report, metaUpdates, setIf,
      hdisj ("stage") (by decide), if_isSome_self] <;> intro h <;> simp [h]
  · simp [generate_json_report, metaUpdates, setIf,
      hdisj ("hub_version") (by decide), if_isSome_self] <;> intro h <;> simp [h]
  · simp [generate_json_report, metaUpdates, setIf,
      hdisj ("hub_platform") (by decide), if_isSome_self] <;> intro h <;> simp [h]
  · simp [generate_json_report, metaUpdates, setIf,
      hdisj ("import_version") (by decide), if_isSome_self] <;> intro h <;> simp [h]
  · simp [generate_json_report, metaUpdates, setIf,
      hdisj ("import_platform") (by decide), if_isSome_self] <;> intro h <;> simp [h]
  · simp [generate_json_report, metaUpdates, setIf,
      hdisj ("job_url") (by decide), if_isSome_self] <;> intro h <;> simp [h]
  · simp [generate_json_report, metaUpdates, setIf,
      hdisj ("build_id") (by decide), if_isSome_self] <;> intro h <;> simp [h]
  · simp [generate_json_report, metaUpdates, setIf,
      hdisj ("issue_url") (by decide), if_isSome_self] <;> intro h <;> simp [h]
  · rfl
  · rfl
  · rfl

/-- Witness for C9 at the default generator and a sample raw-results
mapping. -/
theorem C9_witness :
    (∀ k ∈ metaKeys, sampleRawResults k = none) ∧
    ((∀ k, k ∉ metaKeys →
        generate_json_report JsonGenerator.pyDefault sampleRawResults k
          = sampleRawResults k) ∧
     generate_json_report JsonGenerator.pyDefault sampleRawResults ("snapshot")
       = JsonGenerator.pyDefault.snapshot.map JValue.s ∧
     generate_json_report JsonGenerator.pyDefault sampleRawResults ("branch")
       = JsonGenerator.pyDefault.branch.map JValue.s ∧
     generate_json_report JsonGenerator.pyDefault sampleRawResults ("stage")
       = JsonGenerator.pyDefault.stage.map JValue.s ∧
     generate_json_report JsonGenerator.pyDefault sampleRawResults ("hub_version")
       = JsonGenerator.pyDefault.hub_version.map JValue.s ∧
     generate_json_report JsonGenerator.pyDefault sampleRawResults ("hub_platform")
       = JsonGenerator.pyDefault.hub_platform.map JValue.s ∧
     generate_json_report JsonGenerator.pyDefault sampleRawResults ("import_version")
       = JsonGenerator.pyDefault.import_version.map JValue.s ∧
     generate_json_report JsonGenerator.pyDefault sampleRawResults ("import_platform")
       = JsonGenerator.pyDefault.import_platform.map JValue.s ∧
     generate_json_report JsonGenerator.pyDefault sampleRawResults ("job_url")
       = JsonGenerator.pyDefault.job_url.map JValue.s ∧
     generate_json_report JsonGenerator.pyDefault sampleRawResults ("build_id")
       = JsonGenerator.pyDefault.build_id.map JValue.s ∧
     generate_json_report JsonGenerator.pyDefault sampleRawResults ("issue_url")
       = JsonGenerator.pyDefault.issue_url.map JValue.s ∧
     generate_json_report JsonGenerator.pyDefault sampleRawResults ("ignorelist")
       = some (JValue.entries []) ∧
     generate_json_report JsonGenerator.pyDefault sampleRawResults ("executed_quality_gate")
       = some (JValue.n 100) ∧
     generate_json_report JsonGenerator.pyDefault sampleRawResults ("passing_quality_gate")
       = some (JValue.n 100)) :=
  ⟨by decide, C9_json_report_frame JsonGenerator.pyDefault sampleRawResults (by decide)⟩

/-- Characterization of the binade: the base-two logarithm floor is e
when the value sits in the interval from 2 to the e up to 2 to the
succ e. -/
theorem int_log2_eq (q : ℚ) (e : ℤ) (hq : 0 < q)
    (h1 : (2:ℚ)^e ≤ q) (h2 : q < (2:ℚ)^(e+1)) : Int.log 2 q = e := by
  have hb : 1 < (2:ℕ) := by norm_num
  have hle : e ≤ Int.log 2 q := by
    rw [← Int.zpow_le_iff_le_log hb hq]
    exact_mod_cast h1
  have hlt : Int.log 2 q < e + 1 := by
    rw [← Int.lt_zpow_iff_log_lt hb hq]
    exact_mod_cast h2
  omega

/-- Evaluation rule for fl64: locate the binade, round the scaled
significand to an integer ties-to-even, and scale back. -/
theorem fl64_eval (q : ℚ) (e m : ℤ) (hq : 0 < q)
    (h1 : (2:ℚ)^e ≤ q) (h2 : q < (2:ℚ)^(e+1))
    (hm : pyRound (q * (2:ℚ)^(52 - e)) = m) :
    fl64 q = (m : ℚ) * (2:ℚ)^(e - 52) := by
  rw [fl64, if_neg (ne_of_gt hq), abs_of_pos hq, int_log2_eq q e hq h1 h2, hm,
    show -((52:ℤ) - e) = e - 52 by ring]

/-- Binary64 rounding of 109/200: the exact significand scaled by 2^53
is 4908923593833840.64, so the double is 0.36 ulp ABOVE 109/200. -/
theorem fl64_div_109_200 :
    fl64 ((109:ℚ)/200) = 4908923593833841 * (2:ℚ)^(-(53:ℤ)) := by
  have hm : pyRound (((109:ℚ)/200) * (2:ℚ)^(52 - (-1:ℤ))) = 4908923593833841 := by
    rw [show ((52:ℤ) - (-1:ℤ)) = ((53:ℕ):ℤ) by norm_num, zpow_natCast]
    rw [show ((109:ℚ)/200) * (2:ℚ)^(53:ℕ) = 122723089845846016/25 by norm_num]
    have hf : ⌊(122723089845846016/25 : ℚ)⌋ = 4908923593833840 := by
      rw [Int.floor_eq_iff]
      norm_num
    rw [pyRound, hf]
    norm_num
  have h := fl64_eval ((109:ℚ)/200) (-1) 4908923593833841 (by norm_num)
    (by rw [show ((2:ℚ)^(-1:ℤ)) = 1/2 by norm_num]; norm_num)
    (by rw [show ((-1:ℤ)+1) = 0 by norm_num, zpow_zero]; norm_num)
    hm
  rw [h, show ((-1:ℤ) - 52) = -(53:ℤ) by norm_num]
  norm_num

/-- Binary64 product of that double with 100: the scaled significand is
7670193115365376.5625, rounding up to an odd significand, so the result
is exactly 54.5 plus 2 to the minus 47 — strictly above the tie. -/
theorem fl64_mul100 :
    fl64 ((4908923593833841 * (2:ℚ)^(-(53:ℤ))) * 100)
      = 7670193115365377 * (2:ℚ)^(-(47:ℤ)) := by
  have harg : (4908923593833841 * (2:ℚ)^(-(53:ℤ))) * 100
      = 122723089845846025/2251799813685248 := by
    rw [show ((2:ℚ)^(-(53:ℤ))) = 1/9007199254740992 by
      rw [zpow_neg, show ((53:ℤ)) = ((53:ℕ):ℤ) by norm_num, zpow_natCast]
      norm_num]
    norm_num
  rw [harg]
  have hm : pyRound ((122723089845846025/2251799813685248 : ℚ) * (2:ℚ)^(52 - (5:ℤ)))
      = 7670193115365377 := by
    rw [show ((52:ℤ) - (5:ℤ)) = ((47:ℕ):ℤ) by norm_num, zpow_natCast]
    rw [show (122723089845846025/2251799813685248 : ℚ) * (2:ℚ)^(47:ℕ)
        = 122723089845846025/16 by norm_num]
    have hf : ⌊(122723089845846025/16 : ℚ)⌋ = 7670193115365376 := by
      rw [Int.floor_eq_iff]
      norm_num
    rw [pyRound, hf]
    norm_num
  have h := fl64_eval (122723089845846025/2251799813685248) 5 7670193115365377
    (by norm_num)
    (by rw [show ((2:ℚ)^(5:ℤ)) = 32 by norm_num]; norm_num)
    (by rw [show ((5:ℤ)+1) = ((6:ℕ):ℤ) by norm_num, zpow_natCast]; norm_num)
    hm
  rw [h, show ((5:ℤ) - 52) = -(47:ℤ) by norm_num]
  norm_num

/-- Binary64 subtraction 100 minus that double: the exact difference has
an integer significand at scale 2 to the minus 47, so the subtraction is
exact. -/
theorem fl64_sub100 :
    fl64 (100 - 7670193115365377 * (2:ℚ)^(-(47:ℤ)))
      = 6403555720167423 * (2:ℚ)^(-(47:ℤ)) := by
  have h2inv : ((2:ℚ)^(-(47:ℤ))) = 1/140737488355328 := by
    rw [zpow_neg, show ((47:ℤ)) = ((47:ℕ):ℤ) by norm_num, zpow_natCast]
    norm_num
  have harg : (100:ℚ) - 7670193115365377 * (2:ℚ)^(-(47:ℤ))
      = 6403555720167423/140737488355328 := by
    rw [h2inv]
    norm_num
  rw [harg]
  have hm : pyRound ((6403555720167423/140737488355328 : ℚ) * (2:ℚ)^(52 - (5:ℤ)))
      = 6403555720167423 := by
    rw [show ((52:ℤ) - (5:ℤ)) = ((47:ℕ):ℤ) by norm_num, zpow_natCast]
    rw [show (6403555720167423/140737488355328 : ℚ) * (2:ℚ)^(47:ℕ)
        = ((6403555720167423:ℤ):ℚ) by norm_num]
    exact pyRound_intCast _
  have h := fl64_eval (6403555720167423/140737488355328) 5 6403555720167423
    (by norm_num)
    (by rw [show ((2:ℚ)^(5:ℤ)) = 32 by norm_num]; norm_num)
    (by rw [show ((5:ℤ)+1) = ((6:ℕ):ℤ) by norm_num, zpow_natCast]; norm_num)
    hm
  rw [h, show ((5:ℤ) - 52) = -(47:ℤ) by norm_num]
  norm_num

/-- The double just above the 54.5 tie rounds to 55. -/
theorem pyRound_above_tie_55 :
    pyRound (7670193115365377 * (2:ℚ)^(-(47:ℤ))) = 55 := by
  have h2inv : ((2:ℚ)^(-(47:ℤ))) = 1/140737488355328 := by
    rw [zpow_neg, show ((47:ℤ)) = ((47:ℕ):ℤ) by norm_num, zpow_natCast]
    norm_num
  rw [h2inv, show (7670193115365377:ℚ) * (1/140737488355328)
      = 7670193115365377/140737488355328 by norm_num]
  have hf : ⌊(7670193115365377/140737488355328 : ℚ)⌋ = 54 := by
    rw [Int.floor_eq_iff]
    norm_num
  rw [pyRound, hf]
  norm_num

/-- The double just below the 45.5 tie rounds to 45. -/
theorem pyRound_below_tie_45 :
    pyRound (6403555720167423 * (2:ℚ)^(-(47:ℤ))) = 45 := by
  have h2inv : ((2:ℚ)^(-(47:ℤ))) = 1/140737488355328 := by
    rw [zpow_neg, show ((47:ℤ)) = ((47:ℕ):ℤ) by norm_num, zpow_natCast]
    norm_num
  rw [h2inv, show (6403555720167423:ℚ) * (1/140737488355328)
      = 6403555720167423/140737488355328 by norm_num]
  have hf : ⌊(6403555720167423/140737488355328 : ℚ)⌋ = 45 := by
    rw [Int.floor_eq_iff]
    norm_num
  rw [pyRound, hf]
  norm_num

/-- Round-half-to-even of the exact tie 54.5 is the even 54. -/
theorem pyRound_exact_tie_54 : pyRound ((109:ℚ)/2) = 54 := by
  have hf : ⌊(109/2 : ℚ)⌋ = 54 := by
    rw [Int.floor_eq_iff]
    norm_num
  rw [pyRound, hf]
  norm_num

/-- Round-half-to-even of the exact tie 45.5 is the even 46. -/
theorem pyRound_exact_tie_46 : pyRound (100 - ((109:ℚ)/(200:ℚ)) * 100) = 46 := by
  rw [show (100:ℚ) - ((109:ℚ)/(200:ℚ)) * 100 = 91/2 by norm_num]
  have hf : ⌊(91/2 : ℚ)⌋ = 45 := by
    rw [Int.floor_eq_iff]
    norm_num
  rw [pyRound, hf]
  norm_num

/-- Unfolding of the binary64 executed percentage when the total is
nonzero. -/
theorem percentage_exectued_float_eq (c : AggregateCounts) (h : c.total ≠ 0) :
    percentage_exectued_float c
      = some (pyRound (fl64 (100 - fl64 (fl64 ((c.skipped : ℚ) / (c.total : ℚ)) * 100)))) := by
  unfold percentage_exectued_float
  rw [if_neg]
  simpa using h

/-- Unfolding of the binary64 passing percentage when some test was
executed. -/
theorem percentage_passing_float_eq (c : AggregateCounts) (h : c.total ≠ c.skipped) :
    percentage_passing_float c
      = some (pyRound (fl64 (fl64 ((c.passed : ℚ) / ((c.total : ℚ) - (c.skipped : ℚ))) * 100))) := by
  unfold percentage_passing_float
  rw [if_neg]
  intro hz
  exact h (by exact_mod_cast sub_eq_zero.mp hz)

/-- At counts 200/109/91/0/0 the program computes a passing percentage
of 55: the float pipeline lands just above the 54.5 tie. -/
theorem passing_float_tie_input :
    percentage_passing_float (AggregateCounts.mk 200 109 91 0 0) = some 55 := by
  rw [percentage_passing_float_eq _ (by decide)]
  show some (pyRound (fl64 (fl64 (((109:ℕ):ℚ) / (((200:ℕ):ℚ) - ((0:ℕ):ℚ))) * 100))) = some 55
  rw [show (((109:ℕ):ℚ) / (((200:ℕ):ℚ) - ((0:ℕ):ℚ))) = (109:ℚ)/200 by norm_num]
  rw [fl64_div_109_200, fl64_mul100, pyRound_above_tie_55]

/-- At counts 200/91/0/109/0 the program computes an executed percentage
of 45: the float pipeline lands just below the 45.5 tie. -/
theorem exectued_float_tie_input :
    percentage_exectued_float (AggregateCounts.mk 200 91 0 109 0) = some 45 := by
  rw [percentage_exectued_float_eq _ (by decide)]
  show some (pyRound (fl64 (100 - fl64 (fl64 (((109:ℕ):ℚ) / ((200:ℕ):ℚ)) * 100)))) = some 45
  rw [show (((109:ℕ):ℚ) / ((200:ℕ):ℚ)) = (109:ℚ)/200 by norm_num]
  rw [fl64_div_109_200, fl64_mul100, fl64_sub100, pyRound_below_tie_45]

/-- Claim C4 counterexample: the summary does not compute round of the
exact formulas.  At counts 200/109/91/0/0 the exact passing formula
round(109/(200-0)*100) is 54 (the tie 54.5 goes to the even neighbour),
but the float pipeline of line 291 yields 55; symmetrically at counts
200/91/0/109/0 the exact executed formula round(100 - 109/200*100) is 46
but the float pipeline of line 290 yields 45. -/
theorem C4_counterexample :
    percentage_passing_float (AggregateCounts.mk 200 109 91 0 0) = some 55 ∧
    pyRound (((109:ℚ)/((200:ℚ) - (0:ℚ))) * 100) = 54 ∧
    percentage_passing_float (AggregateCounts.mk 200 109 91 0 0)
      ≠ some (pyRound (((109:ℚ)/((200:ℚ) - (0:ℚ))) * 100)) ∧
    percentage_exectued_float (AggregateCounts.mk 200 91 0 109 0) = some 45 ∧
    pyRound (100 - ((109:ℚ)/(200:ℚ)) * 100) = 46 ∧
    percentage_exectued_float (AggregateCounts.mk 200 91 0 109 0)
      ≠ some (pyRound (100 - ((109:ℚ)/(200:ℚ)) * 100)) := by
  have hp54 : pyRound (((109:ℚ)/((200:ℚ) - (0:ℚ))) * 100) = 54 := by
    rw [show ((109:ℚ)/((200:ℚ) - (0:ℚ))) * 100 = 109/2 by norm_num]
    exact pyRound_exact_tie_54
  refine ⟨passing_float_tie_input, hp54, ?_, exectued_float_tie_input,
    pyRound_exact_tie_46, ?_⟩
  · rw [passing_float_tie_input, hp54]
    decide
  · rw [exectued_float_tie_input, pyRound_exact_tie_46]
    decide

/-- Claim C4 amended: whenever total is positive and some test was
executed, the summary computes percentage_exectued as
round(fl(100 - fl(fl(skipped/total) * 100))) and percentage_passing as
round(fl(fl(passed/(total-skipped)) * 100)), the formulas of the claim
evaluated step by step in IEEE-754 binary64 arithmetic, with the builtin
round applied to the exact value of the resulting double. -/
theorem C4_float_formulas (c : AggregateCounts)
    (h1 : 0 < c.total) (h2 : c.skipped < c.total) :
    percentage_exectued_float c
      = some (pyRound (fl64 (100 - fl64 (fl64 ((c.skipped : ℚ) / (c.total : ℚ)) * 100)))) ∧
    percentage_passing_float c
      = some (pyRound (fl64 (fl64 ((c.passed : ℚ) / ((c.total : ℚ) - (c.skipped : ℚ))) * 100))) :=
  ⟨percentage_exectued_float_eq c (by omega), percentage_passing_float_eq c (by omega)⟩

/-- Witness for C4 amended at the concrete counts 13/10/2/1/0. -/
theorem C4_float_witness :
    0 < (AggregateCounts.mk 13 10 2 1 0).total ∧
    (AggregateCounts.mk 13 10 2 1 0).skipped < (AggregateCounts.mk 13 10 2 1 0).total ∧
    (percentage_exectued_float (AggregateCounts.mk 13 10 2 1 0)
        = some (pyRound (fl64 (100 - fl64 (fl64 (((AggregateCounts.mk 13 10 2 1 0).skipped : ℚ)
          / ((AggregateCounts.mk 13 10 2 1 0).total : ℚ)) * 100)))) ∧
     percentage_passing_float (AggregateCounts.mk 13 10 2 1 0)
        = some (pyRound (fl64 (fl64 (((AggregateCounts.mk 13 10 2 1 0).passed : ℚ)
          / (((AggregateCounts.mk 13 10 2 1 0).total : ℚ)
            - ((AggregateCounts.mk 13 10 2 1 0).skipped : ℚ))) * 100)))) :=
  ⟨by decide, by decide, C4_float_formulas _ (by decide) (by decide)⟩

/-- Claim C7 counterexample: the rounding applied to the percentages is
not round-half-to-even of the percentage.  At counts 200/109/91/0/0 the
exact passing percentage is the tie 54.5, whose round-half-to-even is
the even 54, but the program computes the odd 55, because the binary64
evaluation of the percentage lands strictly above the tie before the
builtin round is applied. -/
theorem C7_counterexample :
    ((109:ℚ)/((200:ℚ) - (0:ℚ))) * 100 = 109/2 ∧
    pyRound ((109:ℚ)/2) = 54 ∧
    (54:ℤ) % 2 = 0 ∧
    percentage_passing_float (AggregateCounts.mk 200 109 91 0 0) = some 55 ∧
    ¬ (55:ℤ) % 2 = 0 :=
  ⟨by norm_num, pyRound_exact_tie_54, by decide, passing_float_tie_input, by decide⟩

/-- Claim C7 amended: whenever both divisions are defined, both
percentages are obtained by applying the single rounding function
pyRound — the Python builtin round, which rounds to the nearest integer
with ties to the even neighbour — to the binary64-evaluated percentage
before any gate comparison; the same mode is used for both percentages,
but because the binary64 evaluation can move an exact tie, the composite
is not round-half-to-even of the exact percentage. -/
theorem C7_amended_rounding (c : AggregateCounts)
    (h1 : c.total ≠ 0) (h2 : c.total ≠ c.skipped) :
    percentage_exectued_float c
      = some (pyRound (fl64 (100 - fl64 (fl64 ((c.skipped : ℚ) / (c.total : ℚ)) * 100)))) ∧
    percentage_passing_float c
      = some (pyRound (fl64 (fl64 ((c.passed : ℚ) / ((c.total : ℚ) - (c.skipped : ℚ))) * 100))) ∧
    (∀ q : ℚ, |q - (pyRound q : ℚ)| ≤ 1/2) ∧
    (∀ q : ℚ, q - ⌊q⌋ ≠ 1/2 → pyRound q = round q) ∧
    (∀ q : ℚ, q - ⌊q⌋ = 1/2 → pyRound q % 2 = 0) :=
  ⟨percentage_exectued_float_eq c h1, percentage_passing_float_eq c h2,
   pyRound_nearest, pyRound_eq_round, pyRound_tie_even⟩

/-- Witness for C7 amended at the concrete counts 13/10/2/1/0. -/
theorem C7_amended_witness :
    (AggregateCounts.mk 13 10 2 1 0).total ≠ 0 ∧
    (AggregateCounts.mk 13 10 2 1 0).total ≠ (AggregateCounts.mk 13 10 2 1 0).skipped ∧
    (percentage_exectued_float (AggregateCounts.mk 13 10 2 1 0)
        = some (pyRound (fl64 (100 - fl64 (fl64 (((AggregateCounts.mk 13 10 2 1 0).skipped : ℚ)
          / ((AggregateCounts.mk 13 10 2 1 0).total : ℚ)) * 100)))) ∧
     percentage_passing_float (AggregateCounts.mk 13 10 2 1 0)
        = some (pyRound (fl64 (fl64 (((AggregateCounts.mk 13 10 2 1 0).passed : ℚ)
          / (((AggregateCounts.mk 13 10 2 1 0).total : ℚ)
            - ((AggregateCounts.mk 13 10 2 1 0).skipped : ℚ))) * 100))) ∧
     (∀ q : ℚ, |q - (pyRound q : ℚ)| ≤ 1/2) ∧
     (∀ q : ℚ, q - ⌊q⌋ ≠ 1/2 → pyRound q = round q) ∧
     (∀ q : ℚ, q - ⌊q⌋ = 1/2 → pyRound q % 2 = 0)) :=
  ⟨by decide, by decide, C7_amended_rounding _ (by decide) (by decide)⟩
